import Mathlib

/-!
Shallow embedding of the resilient HTTP client core of the repository
(src/agentops/http_client.py) together with the dead-letter-queue layer
that the repository tests (src/tests/test_http_client.py) exercise.

Python dictionaries are modelled as insertion-ordered association lists
with Python assignment semantics (update in place, append when absent);
machine strings stay `String`, HTTP status codes are unbounded `Int`
(Python ints); a value that may raise is returned explicitly.
-/

namespace AgentOps

/-- The `HttpStatus` enum referenced by `http_client.py`
(`from .enums import HttpStatus`).  Modelled from the spec: the enums
module is absent from src/; the constructors are the spec's Outcome set
(§3) and the numeric values follow the classifier table of §4.3 together
with `classify(-1)=UNKNOWN` (§8). -/
inductive HttpStatus where
  | SUCCESS
  | TOO_MANY_REQUESTS
  | PAYLOAD_TOO_LARGE
  | TIMEOUT
  | INVALID_API_KEY
  | INVALID_REQUEST
  | FAILED
  | UNKNOWN
  deriving DecidableEq, Repr

/-- Numeric value of each `HttpStatus` member (`status.value` in Python).
Modelled from the spec (enums module absent from src/). -/
def HttpStatus.value : HttpStatus → Int
  | .SUCCESS => 200
  | .TOO_MANY_REQUESTS => 429
  | .PAYLOAD_TOO_LARGE => 413
  | .TIMEOUT => 408
  | .INVALID_API_KEY => 401
  | .INVALID_REQUEST => 400
  | .FAILED => 500
  | .UNKNOWN => -1

/-- `Response.get_status` (http_client.py lines 28-44): the if/elif chain
mapping an integer status code to an `HttpStatus`. -/
def get_status (code : Int) : HttpStatus :=
  if 200 ≤ code ∧ code < 300 then .SUCCESS
  else if code = 429 then .TOO_MANY_REQUESTS
  else if code = 413 then .PAYLOAD_TOO_LARGE
  else if code = 408 then .TIMEOUT
  else if code = 401 then .INVALID_API_KEY
  else if 400 ≤ code ∧ code < 500 then .INVALID_REQUEST
  else if 500 ≤ code then .FAILED
  else .UNKNOWN

/-- A parsed JSON body: a structured key-value document
(`res.json()` results and the `result.body` dictionaries). -/
abbrev Body := List (String × String)

/-- Association-list model of a Python dict: keys in insertion order. -/
abbrev Dict := List (String × String)

/-- Python dict assignment `d[k] = v`: overwrite in place when the key is
present (keeping its position), append otherwise. -/
def dictSet : Dict → String → String → Dict
  | [], k, v => [(k, v)]
  | (k0, v0) :: rest, k, v =>
      if k0 = k then (k0, v) :: rest else (k0, v0) :: dictSet rest k v

/-- Python `k in d` / `d.get(k)` lookup. -/
def dictGet : Dict → String → Option String
  | [], _ => none
  | (k0, v0) :: rest, k => if k0 = k then some v0 else dictGet rest k

/-- The keys of a dict, in insertion order. -/
def dictKeys (d : Dict) : List String := d.map Prod.fst

/-- ASCII case folding of one character, as Python `str.lower` acts on
the ASCII header names in play. -/
def charLower (c : Char) : Char :=
  if 'A' ≤ c ∧ c ≤ 'Z' then Char.ofNat (c.toNat + 32) else c

/-- Python `k.lower()` (ASCII; all header names involved are ASCII). -/
def pyLower (s : String) : String := ⟨s.data.map charLower⟩

/-- The module constant `JSON_HEADER` (http_client.py line 10). -/
def JSON_HEADER : Dict :=
  [("Content-Type", "application/json; charset=UTF-8"), ("Accept", "*/*")]

/-- The canonical lower-to-proper-case table built by
`HttpClient._prepare_headers` (lines 87-93). -/
def proper_case : Dict :=
  [("content-type", "Content-Type"),
   ("accept", "Accept"),
   ("x-agentops-api-key", "X-AgentOps-Api-Key"),
   ("x-agentops-parent-key", "X-AgentOps-Parent-Key"),
   ("authorization", "Authorization")]

/-- `proper_case.get(lower_k, k)`: canonical spelling when the lowered
name is in the table, the original spelling otherwise. -/
def properGet (k : String) : String :=
  match dictGet proper_case (pyLower k) with
  | some p => p
  | none => k

/-- `HttpClient._prepare_headers` (http_client.py lines 78-114):
defaults, then api key, then parent key, then bearer token, then the
caller override map, every write going through `properGet`. -/
def prepare_headers (api_key parent_key jwt : Option String)
    (custom_headers : Option Dict) : Dict :=
  let headers : Dict :=
    JSON_HEADER.foldl (fun h kv => dictSet h (properGet kv.1) kv.2) []
  let headers :=
    match api_key with
    | some k => dictSet headers "X-AgentOps-Api-Key" k
    | none => headers
  let headers :=
    match parent_key with
    | some k => dictSet headers "X-AgentOps-Parent-Key" k
    | none => headers
  let headers :=
    match jwt with
    | some j => dictSet headers "Authorization" ("Bearer " ++ j)
    | none => headers
  match custom_headers with
  | some custom => custom.foldl (fun h kv => dictSet h (properGet kv.1) kv.2) headers
  | none => headers

/-- The `Response` objects of http_client.py: semantic status, numeric
code, parsed body. -/
structure Response where
  status : HttpStatus
  code : Int
  body : Body
  deriving DecidableEq, Repr

/-- `Response()` with no arguments (lines 16-19): UNKNOWN status, the
status's numeric value as code, empty body. -/
def Response.init : Response :=
  { status := .UNKNOWN, code := HttpStatus.UNKNOWN.value, body := [] }

/-- `Response.parse` on a transport response whose `.json()` call
returned `b` (lines 21-26): code from the wire, status classified from
the code, body the parsed document. -/
def Response.parseWith (status_code : Int) (b : Body) : Response :=
  { status := get_status status_code, code := status_code, body := b }

/-- `ApiServerException`: the typed error raised by the client,
carrying a human-readable message. -/
structure ApiServerException where
  msg : String
  deriving DecidableEq, Repr

/-- HTTP method of an outgoing request. -/
inductive Method where
  | POST
  | GET
  deriving DecidableEq, Repr

/-- One outgoing wire request as issued through the session
(`session.post(url, data=payload, headers=headers, timeout=20)` /
`session.get(url, headers=headers, timeout=20)`). -/
structure Request where
  method : Method
  url : String
  payload : Option String
  headers : Dict
  timeout : Nat
  deriving DecidableEq, Repr

deriving instance DecidableEq for Except

/-- A raw transport response: wire status code plus the outcome of its
`.json()` call (`Except.error m` when json decoding raises with message
`m`). -/
structure TransportResponse where
  status_code : Int
  json : Except String Body
  deriving DecidableEq, Repr

/-- What the underlying transport does with one request: return a
response, time out, raise an `HTTPError` carrying a response, or raise
another `RequestException`. -/
inductive TransportResult where
  | ok (res : TransportResponse)
  | timeout
  | httpError (res : TransportResponse) (msg : String)
  | requestError (msg : String)
  deriving DecidableEq, Repr

/-- The environment: a deterministic transport oracle mapping each wire
request to its result. -/
abbrev Transport := Request → TransportResult

/-- The outcome of one `post`/`get` call: the exception raised, if any,
together with the final state of the local `result` variable. -/
structure CallOutcome where
  raised : Option ApiServerException
  result : Response
  deriving DecidableEq, Repr

/-- Rendering of a Python dict inside an f-string
(`f"API server: \x7bresult.body\x7d"`).  The exact text of Python's
`repr` is abstracted; no verified property depends on it. -/
def bodyToString (b : Body) : String :=
  b.foldl (fun s kv => s ++ kv.1 ++ ": " ++ kv.2 ++ "; ") "body: "

/-- The status-code checks shared by the tails of `post` (lines 154-167)
and `get` (lines 202-214): raise on 401 with `msg401`, on 400 with the
body message, on 500 with a fixed message; otherwise return the parsed
response.  `msg401` differs between `post` and `get`. -/
def statusChecks (msg401 : String) (result : Response) : CallOutcome :=
  if result.code = 401 then
    { raised := some ⟨msg401⟩, result := result }
  else if result.code = 400 then
    match dictGet result.body "message" with
    | some m => { raised := some ⟨"API server: " ++ m⟩, result := result }
    | none => { raised := some ⟨"API server: " ++ bodyToString result.body⟩, result := result }
  else if result.code = 500 then
    { raised := some ⟨"API server: internal server error"⟩, result := result }
  else
    { raised := none, result := result }

/-- The 401 message of `post` (lines 155-158): fixed text, the api key
is not interpolated. -/
def postMsg401 : String :=
  "API server: invalid API key or JWT. Find your API key at https://app.agentops.ai/settings/projects"

/-- Python interpolation of an optional string into an f-string:
`None` prints as "None". -/
def optStr : Option String → String
  | some s => s
  | none => "None"

/-- The 401 message of `get` (lines 202-205): interpolates the
caller-supplied api key into the text. -/
def getMsg401 (api_key : Option String) : String :=
  "API server: invalid API key: " ++ optStr api_key ++
    ". Find your API key at https://app.agentops.ai/settings/projects"

/-- The shared body of `post`/`get` after the wire call: the success
path parses and falls through to the status checks; `Timeout` raises
the unreachable message with the attempt classified 408/TIMEOUT;
`HTTPError` tries to parse the attached response, falling through on
success and raising `HTTPError: ...` when the body does not parse;
any other `RequestException` raises `RequestException: ...`.
A failing `.json()` on the success path is itself a `RequestException`
(requests raises `JSONDecodeError`, a `RequestException` subclass), so
it lands in the last branch with `result.body` set to the error. -/
def handleTransport (msg401 : String) (tr : TransportResult) : CallOutcome :=
  match tr with
  | .ok res =>
      match res.json with
      | .ok b => statusChecks msg401 (Response.parseWith res.status_code b)
      | .error m =>
          { raised := some ⟨"RequestException: " ++ m⟩,
            result := { Response.init with body := [("error", m)] } }
  | .timeout =>
      { raised := some ⟨"Could not reach API server - connection timed out"⟩,
        result := { Response.init with code := 408, status := .TIMEOUT } }
  | .httpError res m =>
      match res.json with
      | .ok b => statusChecks msg401 (Response.parseWith res.status_code b)
      | .error _ =>
          { raised := some ⟨"HTTPError: " ++ m⟩,
            result := { status := get_status res.status_code,
                        code := res.status_code,
                        body := [("error", m)] } }
  | .requestError m =>
      { raised := some ⟨"RequestException: " ++ m⟩,
        result := { Response.init with body := [("error", m)] } }

/-- The wire request built by `HttpClient.post` (lines 130-134). -/
def postRequest (url : String) (payload : String)
    (api_key parent_key jwt : Option String) (header : Option Dict) : Request :=
  { method := .POST, url := url, payload := some payload,
    headers := prepare_headers api_key parent_key jwt header, timeout := 20 }

/-- The wire request built by `HttpClient.get` (lines 180-182); note
`_prepare_headers(api_key, None, jwt, header)`. -/
def getRequest (url : String) (api_key jwt : Option String)
    (header : Option Dict) : Request :=
  { method := .GET, url := url, payload := none,
    headers := prepare_headers api_key none jwt header, timeout := 20 }

/-- `HttpClient.post` (http_client.py lines 116-167) as found in src/:
build headers, issue the request through the pooled session, handle the
failure taxonomy and the final status checks.  No dead-letter-queue
interaction appears in this version of the file. -/
def rawPost (T : Transport) (url : String) (payload : String)
    (api_key parent_key jwt : Option String) (header : Option Dict) : CallOutcome :=
  handleTransport postMsg401 (T (postRequest url payload api_key parent_key jwt header))

/-- `HttpClient.get` (http_client.py lines 169-214) as found in src/. -/
def rawGet (T : Transport) (url : String)
    (api_key jwt : Option String) (header : Option Dict) : CallOutcome :=
  handleTransport (getMsg401 api_key) (T (getRequest url api_key jwt header))

/-- The `Retry` configuration attached to the pooling adapter
(http_client.py line 60): `Retry(total=3, backoff_factor=0.1,
status_forcelist=[500, 502, 503, 504])`.  The backoff factor 0.1 is
kept as a rational numerator/denominator pair to avoid floating
point. -/
structure RetryConfig where
  total : Nat
  backoff_factor_num : Nat
  backoff_factor_den : Nat
  status_forcelist : List Int
  deriving DecidableEq, Repr

/-- The observable configuration of the shared `requests.Session`
built by `HttpClient.get_session` (lines 50-76): the adapter's pool
sizes and retry policy (mounted for both http and https) and the
session default headers. -/
structure Session where
  pool_connections : Nat
  pool_maxsize : Nat
  max_retries : RetryConfig
  mounted : List String
  headers : Dict
  deriving DecidableEq, Repr

/-- The session `get_session` constructs on first use (lines 54-74). -/
def newSession : Session :=
  { pool_connections := 15,
    pool_maxsize := 256,
    max_retries :=
      { total := 3, backoff_factor_num := 1, backoff_factor_den := 10,
        status_forcelist := [500, 502, 503, 504] },
    mounted := ["http://", "https://"],
    headers :=
      [("Connection", "keep-alive"),
       ("Keep-Alive", "timeout=10, max=1000"),
       ("Content-Type", "application/json")] }

/-- `HttpClient.get_session` (lines 50-76) as a transition on the class
attribute `_session`: create the configured session when the attribute
is `None`, otherwise return the stored session unchanged. -/
def get_session : Option Session → Session × Option Session
  | none => (newSession, some newSession)
  | some s => (s, some s)

/-- Modelled from the spec: the Request Descriptor of §3 — the record a
failed request leaves in the dead-letter queue, with the fields the
repository tests build (`url`, `payload` absent for GET, the three
credentials, `error_type`).  The descriptor type is absent from
src/agentops/http_client.py; only src/tests/test_http_client.py uses
it. -/
structure FailedRequest where
  url : String
  payload : Option String
  api_key : Option String
  parent_key : Option String
  jwt : Option String
  error_type : String
  deriving DecidableEq, Repr

/-- Modelled from the spec: the DLQ state of §4.5 — an ordered list of
descriptors; `add` appends without deduplication, `get_all` is the
snapshot, `clear` empties unconditionally. -/
abbrev DLQ := List FailedRequest

/-- Modelled from the spec: `dead_letter_queue.add(descriptor)` (§4.5)
appends. -/
def DLQ.add (q : DLQ) (d : FailedRequest) : DLQ := q ++ [d]

/-- Modelled from the spec: `dead_letter_queue.get_all()` (§4.5)
returns the current ordered snapshot without mutating it. -/
def DLQ.get_all (q : DLQ) : List FailedRequest := q

/-- Modelled from the spec: `dead_letter_queue.clear()` (§4.5) empties
the queue unconditionally. -/
def DLQ.clear (_ : DLQ) : DLQ := []

/-- Modelled from the spec: a drain pass reissues one descriptor
through the Request Executor — as a POST when a payload was recorded,
as a GET otherwise (§4.5, and the GET/POST replay test) — without
touching the DLQ and without re-triggering a drain. -/
def replay (T : Transport) (d : FailedRequest) : CallOutcome :=
  match d.payload with
  | some p => rawPost T d.url p d.api_key d.parent_key d.jwt none
  | none => rawGet T d.url d.api_key d.jwt none

/-- Modelled from the spec: `dead_letter_queue.drain()` (§4.5) — for
each queued descriptor in enqueue order, reissue it; a replay that
completes without raising removes the descriptor, a replay that raises
leaves it in place and the pass continues with the next descriptor. -/
def drain (T : Transport) : DLQ → DLQ
  | [] => []
  | d :: rest =>
      if (replay T d).raised.isNone then drain T rest
      else d :: drain T rest

/-- The descriptor a failing `post` call leaves behind (fields as built
by the repository tests).  Modelled from the spec (§3, §4.4). -/
def postDescriptor (url : String) (payload : String)
    (api_key parent_key jwt : Option String) (error_type : String) : FailedRequest :=
  { url := url, payload := some payload, api_key := api_key,
    parent_key := parent_key, jwt := jwt, error_type := error_type }

/-- The descriptor a failing `get` call leaves behind. Modelled from
the spec (§3, §4.4). -/
def getDescriptor (url : String) (api_key jwt : Option String)
    (error_type : String) : FailedRequest :=
  { url := url, payload := none, api_key := api_key,
    parent_key := none, jwt := jwt, error_type := error_type }

/-- Modelled from the spec: the DLQ bookkeeping of one executed request
(§4.4) — enqueue a descriptor with error_type "Timeout" on a transport
timeout, with error_type "ServerError" on a protocol-level error whose
attached response has status ≥ 500, and nowhere else. -/
def enqueueOnFailure (tr : TransportResult) (d : String → FailedRequest)
    (q : DLQ) : DLQ :=
  match tr with
  | .timeout => q.add (d "Timeout")
  | .httpError res _ => if 500 ≤ res.status_code then q.add (d "ServerError") else q
  | _ => q

/-- Modelled from the spec: `HttpClient.post` with its dead-letter
layer (§4.4-§4.5), absent from src/agentops/http_client.py but
exercised by src/tests/test_http_client.py — the src body (`rawPost`)
plus: the selective enqueue of a failure descriptor, and a DLQ drain
triggered after the call completes with outcome SUCCESS, before the
result is returned. -/
def post (T : Transport) (url : String) (payload : String)
    (api_key parent_key jwt : Option String) (header : Option Dict)
    (q : DLQ) : CallOutcome × DLQ :=
  let out := rawPost T url payload api_key parent_key jwt header
  let q1 := enqueueOnFailure (T (postRequest url payload api_key parent_key jwt header))
    (postDescriptor url payload api_key parent_key jwt) q
  if out.raised.isNone ∧ out.result.status = .SUCCESS then (out, drain T q1)
  else (out, q1)

/-- Modelled from the spec: `HttpClient.get` with its dead-letter layer
(§4.4-§4.5), as for `post`. -/
def get (T : Transport) (url : String) (api_key jwt : Option String)
    (header : Option Dict) (q : DLQ) : CallOutcome × DLQ :=
  let out := rawGet T url api_key jwt header
  let q1 := enqueueOnFailure (T (getRequest url api_key jwt header))
    (getDescriptor url api_key jwt) q
  if out.raised.isNone ∧ out.result.status = .SUCCESS then (out, drain T q1)
  else (out, q1)

/-! ## Concrete fixtures (mirroring the repository test inputs) -/

/-- A transport where every request succeeds with a parsed 200 body. -/
def TOk : Transport := fun _ => .ok ⟨200, .ok [("message", "Success")]⟩

/-- A transport where every request times out. -/
def TTimeout : Transport := fun _ => .timeout

/-- A transport where every request raises an `HTTPError` carrying a
502 response with a parsable body. -/
def T502 : Transport := fun _ => .httpError ⟨502, .ok []⟩ "502 Server Error"

/-- A transport where every request returns a parsed 401 response. -/
def T401 : Transport := fun _ => .ok ⟨401, .ok [("error", "Invalid API key")]⟩

/-- A transport where every request raises an `HTTPError` carrying a
500 response with a parsable body. -/
def TFail : Transport :=
  fun _ => .httpError ⟨500, .ok [("error", "Internal Server Error")]⟩ "500 Server Error"

/-- A transport that raises an `HTTPError` carrying a parsable 500
response for the replay URL and succeeds everywhere else. -/
def TMixed : Transport := fun r =>
  if r.url = "https://example.com/api1" then
    .httpError ⟨500, .ok [("error", "Internal Server Error")]⟩ "500 Server Error"
  else .ok ⟨200, .ok [("message", "Success")]⟩

/-- A pre-seeded DLQ descriptor, as built in the repository tests. -/
def d0 : FailedRequest :=
  { url := "https://example.com/api1", payload := some "x",
    api_key := some "API_KEY_1", parent_key := none, jwt := none,
    error_type := "Timeout" }

/-! ## Basic lemmas -/

lemma get_status_success_iff (c : Int) :
    get_status c = .SUCCESS ↔ 200 ≤ c ∧ c < 300 := by
  unfold get_status
  split_ifs <;> simp_all

lemma statusChecks_result (msg401 : String) (r : Response) :
    (statusChecks msg401 r).result = r := by
  unfold statusChecks
  split_ifs <;> first
    | rfl
    | (cases dictGet r.body "message" <;> rfl)

lemma statusChecks_raised_none_iff (msg401 : String) (r : Response) :
    (statusChecks msg401 r).raised = none ↔
      r.code ≠ 401 ∧ r.code ≠ 400 ∧ r.code ≠ 500 := by
  unfold statusChecks
  cases h : dictGet r.body "message" <;> split_ifs <;> simp_all

lemma drain_eq_filter (T : Transport) (q : DLQ) :
    drain T q = q.filter (fun d => (replay T d).raised.isSome) := by
  induction q with
  | nil => rfl
  | cons d rest ih =>
      unfold drain
      cases h : (replay T d).raised <;>
        simp_all [List.filter_cons, Option.isSome, Option.isNone]

lemma drain_sublist (T : Transport) (q : DLQ) : List.Sublist (drain T q) q := by
  rw [drain_eq_filter]
  exact List.filter_sublist q

lemma statusChecks_eq_of_code (msg401 : String) (r : Response)
    (h1 : r.code ≠ 401) (h2 : r.code ≠ 400) (h3 : r.code ≠ 500) :
    statusChecks msg401 r = { raised := none, result := r } := by
  unfold statusChecks
  rw [if_neg h1, if_neg h2, if_neg h3]

lemma statusChecks_401 (msg401 : String) (r : Response) (h : r.code = 401) :
    statusChecks msg401 r = { raised := some ⟨msg401⟩, result := r } := by
  unfold statusChecks
  rw [if_pos h]

lemma post_eq_no_drain (T : Transport) (u p : String) (a pk j : Option String)
    (hd : Option Dict) (q : DLQ)
    (h : ¬((rawPost T u p a pk j hd).raised.isNone ∧
        (rawPost T u p a pk j hd).result.status = .SUCCESS)) :
    post T u p a pk j hd q =
      (rawPost T u p a pk j hd,
        enqueueOnFailure (T (postRequest u p a pk j hd)) (postDescriptor u p a pk j) q) := by
  simp only [post]
  rw [if_neg h]

lemma get_eq_no_drain (T : Transport) (u : String) (a j : Option String)
    (hd : Option Dict) (q : DLQ)
    (h : ¬((rawGet T u a j hd).raised.isNone ∧
        (rawGet T u a j hd).result.status = .SUCCESS)) :
    get T u a j hd q =
      (rawGet T u a j hd,
        enqueueOnFailure (T (getRequest u a j hd)) (getDescriptor u a j) q) := by
  simp only [get]
  rw [if_neg h]

lemma post_dlq_cases (T : Transport) (u p : String) (a pk j : Option String)
    (hd : Option Dict) (q : DLQ) :
    (post T u p a pk j hd q).2 =
        drain T (enqueueOnFailure (T (postRequest u p a pk j hd))
          (postDescriptor u p a pk j) q) ∨
      (post T u p a pk j hd q).2 =
        enqueueOnFailure (T (postRequest u p a pk j hd)) (postDescriptor u p a pk j) q := by
  simp only [post]
  split <;> simp

lemma get_dlq_cases (T : Transport) (u : String) (a j : Option String)
    (hd : Option Dict) (q : DLQ) :
    (get T u a j hd q).2 =
        drain T (enqueueOnFailure (T (getRequest u a j hd)) (getDescriptor u a j) q) ∨
      (get T u a j hd q).2 =
        enqueueOnFailure (T (getRequest u a j hd)) (getDescriptor u a j) q := by
  simp only [get]
  split <;> simp

lemma handle_httpError_ge500 (msg401 : String) (res : TransportResponse) (m : String)
    (h5 : 500 ≤ res.status_code) :
    ((handleTransport msg401 (.httpError res m)).raised = none ↔
      (∃ b, res.json = .ok b) ∧ res.status_code ≠ 500) ∧
    ¬((handleTransport msg401 (.httpError res m)).raised.isNone ∧
      (handleTransport msg401 (.httpError res m)).result.status = .SUCCESS) := by
  cases hj : res.json with
  | error e => simp [handleTransport, hj]
  | ok b =>
      constructor
      · rw [show handleTransport msg401 (.httpError res m) =
            statusChecks msg401 (Response.parseWith res.status_code b) by
              simp [handleTransport, hj]]
        rw [statusChecks_raised_none_iff]
        simp only [Response.parseWith, hj]
        constructor
        · rintro ⟨-, -, h500⟩
          exact ⟨⟨b, rfl⟩, h500⟩
        · rintro ⟨-, h500⟩
          exact ⟨by omega, by omega, h500⟩
      · rintro ⟨-, hs⟩
        rw [show handleTransport msg401 (.httpError res m) =
            statusChecks msg401 (Response.parseWith res.status_code b) by
              simp [handleTransport, hj]] at hs
        rw [statusChecks_result] at hs
        have := (get_status_success_iff res.status_code).mp hs
        omega

lemma handle_401 (msg401 : String) (tr : TransportResult) (res : TransportResponse)
    (htr : tr = .ok res ∨ ∃ m, tr = .httpError res m) (h4 : res.status_code = 401) :
    (handleTransport msg401 tr).raised ≠ none ∧
    ¬((handleTransport msg401 tr).raised.isNone ∧
      (handleTransport msg401 tr).result.status = .SUCCESS) ∧
    (∀ b, res.json = .ok b → (handleTransport msg401 tr).raised = some ⟨msg401⟩) := by
  have hsc : ∀ b : Body, statusChecks msg401 (Response.parseWith res.status_code b) =
      { raised := some ⟨msg401⟩, result := Response.parseWith res.status_code b } :=
    fun b => statusChecks_401 msg401 _ h4
  rcases htr with rfl | ⟨m, rfl⟩ <;>
    cases hj : res.json <;>
      simp_all [handleTransport, hj]

lemma dictGet_dictSet_self (d : Dict) (k v : String) :
    dictGet (dictSet d k v) k = some v := by
  induction d with
  | nil => simp [dictSet, dictGet]
  | cons kv rest ih =>
      obtain ⟨k0, v0⟩ := kv
      by_cases h : k0 = k <;> simp [dictSet, dictGet, h, ih]

lemma dictGet_dictSet_ne (d : Dict) (k v k0 : String) (h : k0 ≠ k) :
    dictGet (dictSet d k v) k0 = dictGet d k0 := by
  induction d with
  | nil =>
      simp only [dictSet, dictGet]
      rw [if_neg (fun hh => h hh.symm)]
  | cons kv rest ih =>
      obtain ⟨k1, v1⟩ := kv
      by_cases h1 : k1 = k <;> simp [dictSet, dictGet, h1, ih] <;>
        by_cases h0 : k1 = k0 <;> simp_all

lemma dictKeys_dictSet (d : Dict) (k v : String) :
    dictKeys (dictSet d k v) =
      if k ∈ dictKeys d then dictKeys d else dictKeys d ++ [k] := by
  induction d with
  | nil => simp [dictSet, dictKeys]
  | cons kv rest ih =>
      obtain ⟨k0, v0⟩ := kv
      by_cases h : k0 = k
      · subst h
        simp [dictSet, dictKeys]
      · simp only [dictSet, if_neg h, dictKeys, List.map_cons] at ih ⊢
        rw [ih]
        by_cases hm : k ∈ List.map Prod.fst rest <;>
          simp [hm, Ne.symm h]

lemma mem_dictKeys_dictSet (d : Dict) (k v a : String) :
    a ∈ dictKeys (dictSet d k v) ↔ a ∈ dictKeys d ∨ a = k := by
  rw [dictKeys_dictSet]
  split <;> rename_i h <;> simp
  intro ha
  subst ha
  exact h

lemma nodup_dictKeys_dictSet (d : Dict) (k v : String)
    (h : (dictKeys d).Nodup) : (dictKeys (dictSet d k v)).Nodup := by
  rw [dictKeys_dictSet]
  split <;> rename_i hm
  · exact h
  · simp [List.nodup_append, h, hm]

lemma dictGet_proper_case_cases (l P : String)
    (h : dictGet proper_case l = some P) :
    P = "Content-Type" ∨ P = "Accept" ∨ P = "X-AgentOps-Api-Key" ∨
      P = "X-AgentOps-Parent-Key" ∨ P = "Authorization" := by
  simp only [proper_case, dictGet] at h
  split_ifs at h <;> simp_all

lemma properGet_idem (k : String) : properGet (properGet k) = properGet k := by
  cases h : dictGet proper_case (pyLower k) with
  | none =>
      have h1 : properGet k = k := by unfold properGet; rw [h]
      rw [h1]
      exact h1
  | some p =>
      have h1 : properGet k = p := by unfold properGet; rw [h]
      rw [h1]
      rcases dictGet_proper_case_cases (pyLower k) p h with
        rfl | rfl | rfl | rfl | rfl <;> decide

lemma properGet_of_table (l P k : String) (h : dictGet proper_case l = some P)
    (hk : pyLower k = l) : properGet k = P := by
  unfold properGet
  rw [hk, h]

lemma foldl_writes_normalized (custom : List (String × String)) (h0 : Dict)
    (hbase : ∀ k ∈ dictKeys h0, properGet k = k) :
    ∀ k ∈ dictKeys (custom.foldl (fun h kv => dictSet h (properGet kv.1) kv.2) h0),
      properGet k = k := by
  induction custom generalizing h0 with
  | nil => exact hbase
  | cons kv rest ih =>
      simp only [List.foldl_cons]
      refine ih (dictSet h0 (properGet kv.1) kv.2) ?_
      intro k hk
      rcases (mem_dictKeys_dictSet h0 (properGet kv.1) kv.2 k).mp hk with hk0 | rfl
      · exact hbase k hk0
      · exact properGet_idem kv.1

lemma foldl_writes_nodup (custom : List (String × String)) (h0 : Dict)
    (hbase : (dictKeys h0).Nodup) :
    (dictKeys (custom.foldl (fun h kv => dictSet h (properGet kv.1) kv.2) h0)).Nodup := by
  induction custom generalizing h0 with
  | nil => exact hbase
  | cons kv rest ih =>
      simp only [List.foldl_cons]
      exact ih _ (nodup_dictKeys_dictSet h0 (properGet kv.1) kv.2 hbase)

lemma dictGet_foldl_writes (custom : List (String × String)) (h0 : Dict) (K : String) :
    dictGet (custom.foldl (fun h kv => dictSet h (properGet kv.1) kv.2) h0) K =
      match custom.reverse.find? (fun kv => properGet kv.1 == K) with
      | some kv => some kv.2
      | none => dictGet h0 K := by
  induction custom generalizing h0 with
  | nil => simp
  | cons kv rest ih =>
      simp only [List.foldl_cons, List.reverse_cons]
      rw [ih]
      rw [List.find?_append]
      cases hfr : rest.reverse.find? (fun kv => properGet kv.1 == K) with
      | some kv1 => simp [Option.or]
      | none =>
          rw [Option.none_or]
          by_cases hk : properGet kv.1 = K
          · rw [show List.find? (fun kv => properGet kv.1 == K) [kv] = some kv by
              simp [List.find?_cons, hk]]
            rw [hk, dictGet_dictSet_self]
          · rw [show List.find? (fun kv => properGet kv.1 == K) [kv] = none by
              simp [List.find?_cons, hk]]
            exact dictGet_dictSet_ne _ _ _ _ (fun hK => hk hK.symm)

lemma prepare_headers_some_eq (a pk j : Option String) (custom : Dict) :
    prepare_headers a pk j (some custom) =
      custom.foldl (fun h kv => dictSet h (properGet kv.1) kv.2)
        (prepare_headers a pk j none) := rfl

lemma dictKeys_prepare_headers_base (a pk j : Option String) :
    dictKeys (prepare_headers a pk j none) =
      (["Content-Type", "Accept"] ++
        (match a with | some _ => ["X-AgentOps-Api-Key"] | none => []) ++
        (match pk with | some _ => ["X-AgentOps-Parent-Key"] | none => []) ++
        (match j with | some _ => ["Authorization"] | none => [])) := by
  cases a <;> cases pk <;> cases j <;> rfl

lemma mem_dictKeys_prepare_headers_base (a pk j : Option String) (k : String)
    (hk : k ∈ dictKeys (prepare_headers a pk j none)) :
    k = "Content-Type" ∨ k = "Accept" ∨ k = "X-AgentOps-Api-Key" ∨
      k = "X-AgentOps-Parent-Key" ∨ k = "Authorization" := by
  rw [dictKeys_prepare_headers_base] at hk
  cases a <;> cases pk <;> cases j <;> simp at hk <;> tauto

lemma prepare_headers_base_normalized (a pk j : Option String) :
    ∀ k ∈ dictKeys (prepare_headers a pk j none), properGet k = k := by
  intro k hk
  rcases mem_dictKeys_prepare_headers_base a pk j k hk with
    rfl | rfl | rfl | rfl | rfl <;> decide

lemma prepare_headers_base_nodup (a pk j : Option String) :
    (dictKeys (prepare_headers a pk j none)).Nodup := by
  rw [dictKeys_prepare_headers_base]
  cases a <;> cases pk <;> cases j <;> simp

lemma prepare_headers_base_auth (a pk : Option String) (t : String) :
    dictGet (prepare_headers a pk (some t) none) "Authorization" =
      some ("Bearer " ++ t) := by
  cases a <;> cases pk <;> rfl

lemma length_le_one_of_nodup_all_eq (l : List String) (P : String)
    (hnd : l.Nodup) (hall : ∀ x ∈ l, x = P) : l.length ≤ 1 := by
  cases l with
  | nil => simp
  | cons x xs =>
      cases xs with
      | nil => simp
      | cons y ys =>
          exfalso
          have hx := hall x (by simp)
          have hy := hall y (by simp)
          subst hx
          rw [hy] at hnd
          simp at hnd

lemma handle_parsed (msg401 : String) (tr : TransportResult) (res : TransportResponse)
    (b : Body) (htr : tr = .ok res ∨ ∃ m, tr = .httpError res m)
    (hj : res.json = .ok b) :
    handleTransport msg401 tr =
      statusChecks msg401 (Response.parseWith res.status_code b) := by
  rcases htr with rfl | ⟨m, rfl⟩ <;> simp [handleTransport, hj]

lemma enqueueOnFailure_eq_of_success (msg401 : String) (tr : TransportResult)
    (d : String → FailedRequest) (q : DLQ)
    (h1 : (handleTransport msg401 tr).raised = none)
    (h2 : (handleTransport msg401 tr).result.status = .SUCCESS) :
    enqueueOnFailure tr d q = q := by
  cases tr with
  | ok res => rfl
  | timeout => simp [handleTransport] at h1
  | requestError m => simp [handleTransport] at h1
  | httpError res m =>
      cases hj : res.json with
      | error e => simp [handleTransport, hj] at h1
      | ok b =>
          have hs : get_status res.status_code = .SUCCESS := by
            simpa [handleTransport, hj, statusChecks_result, Response.parseWith] using h2
          obtain ⟨h200, h300⟩ := (get_status_success_iff res.status_code).mp hs
          simp only [enqueueOnFailure]
          rw [if_neg (by omega)]

/-! ## Claim theorems -/

/-- C4: the status classifier is a total, deterministic, pure function
of the integer status code: 200-299 map to SUCCESS, 429 to
TOO_MANY_REQUESTS, 413 to PAYLOAD_TOO_LARGE, 408 to TIMEOUT, 401 to
INVALID_API_KEY, every other 400-499 code to INVALID_REQUEST, every
code ≥ 500 to FAILED, anything else (including negatives) to UNKNOWN,
with the specific 4xx cases taking precedence over the generic 400-499
bucket. -/
theorem get_status_spec (c : Int) :
    (get_status c = .SUCCESS ↔ 200 ≤ c ∧ c < 300) ∧
    (get_status c = .TOO_MANY_REQUESTS ↔ c = 429) ∧
    (get_status c = .PAYLOAD_TOO_LARGE ↔ c = 413) ∧
    (get_status c = .TIMEOUT ↔ c = 408) ∧
    (get_status c = .INVALID_API_KEY ↔ c = 401) ∧
    (get_status c = .INVALID_REQUEST ↔
      (400 ≤ c ∧ c < 500 ∧ c ≠ 401 ∧ c ≠ 408 ∧ c ≠ 413 ∧ c ≠ 429)) ∧
    (get_status c = .FAILED ↔ 500 ≤ c) ∧
    (get_status c = .UNKNOWN ↔ (c < 200 ∨ (300 ≤ c ∧ c < 400))) := by
  unfold get_status
  split_ifs <;> simp_all <;> omega

/-- C7: the transport pool is a lazily created singleton — the first
`get_session` call creates the session and every later call returns
that same session unchanged — configured with 15 distinct pools, 256
connections per pool, and low-level retry with exponential backoff
restricted to status codes 500, 502, 503 and 504; every wire request
built by `post`/`get` carries the fixed timeout 20. -/
theorem get_session_singleton :
    get_session none = (newSession, some newSession) ∧
    (∀ s : Session, get_session (some s) = (s, some s)) ∧
    (∀ st : Option Session,
      get_session (get_session st).2 = ((get_session st).1, (get_session st).2)) ∧
    newSession.pool_connections = 15 ∧
    newSession.pool_maxsize = 256 ∧
    newSession.max_retries.status_forcelist = [500, 502, 503, 504] ∧
    (∀ url payload a pk j hd, (postRequest url payload a pk j hd).timeout = 20) ∧
    (∀ url a j hd, (getRequest url a j hd).timeout = 20) := by
  refine ⟨rfl, fun s => rfl, fun st => ?_, rfl, rfl, rfl, fun _ _ _ _ _ _ => rfl,
    fun _ _ _ _ => rfl⟩
  cases st <;> rfl

/-- C1: after any `post` or `get` that completes with outcome SUCCESS,
a DLQ drain runs before the result is returned: the call returns
exactly the raw executor result (never masked or delayed by the drain)
paired with the drained queue, and the drain processes every descriptor
queued at its start in enqueue order, removing exactly those whose
replay raised nothing and keeping the rest in place. -/
theorem success_triggers_dlq_drain (T : Transport) :
    (∀ u p a pk j hd q,
      (rawPost T u p a pk j hd).raised = none →
      (rawPost T u p a pk j hd).result.status = .SUCCESS →
      post T u p a pk j hd q = (rawPost T u p a pk j hd, drain T q)) ∧
    (∀ u a j hd q,
      (rawGet T u a j hd).raised = none →
      (rawGet T u a j hd).result.status = .SUCCESS →
      get T u a j hd q = (rawGet T u a j hd, drain T q)) ∧
    (∀ q, drain T q = q.filter (fun d => (replay T d).raised.isSome)) := by
  refine ⟨?_, ?_, drain_eq_filter T⟩
  · intro u p a pk j hd q h1 h2
    have hq := enqueueOnFailure_eq_of_success postMsg401
      (T (postRequest u p a pk j hd)) (postDescriptor u p a pk j) q h1 h2
    simp only [post, hq, h1, h2]
    simp
  · intro u a j hd q h1 h2
    have hq := enqueueOnFailure_eq_of_success (getMsg401 a)
      (T (getRequest u a j hd)) (getDescriptor u a j) q h1 h2
    simp only [get, hq, h1, h2]
    simp

/-- C2: a transport timeout on `post` or `get` raises the
server-unreachable `ApiServerException`, classifies the attempt as
TIMEOUT with code 408, and appends exactly one new descriptor with
error_type "Timeout" to the DLQ. -/
theorem timeout_raises_and_enqueues (T : Transport) :
    (∀ u p a pk j hd q, T (postRequest u p a pk j hd) = .timeout →
      post T u p a pk j hd q =
        ({ raised := some ⟨"Could not reach API server - connection timed out"⟩,
           result := { status := .TIMEOUT, code := 408, body := [] } },
         q ++ [postDescriptor u p a pk j "Timeout"])) ∧
    (∀ u a j hd q, T (getRequest u a j hd) = .timeout →
      get T u a j hd q =
        ({ raised := some ⟨"Could not reach API server - connection timed out"⟩,
           result := { status := .TIMEOUT, code := 408, body := [] } },
         q ++ [getDescriptor u a j "Timeout"])) := by
  constructor
  · intro u p a pk j hd q hT
    simp [post, rawPost, handleTransport, enqueueOnFailure, hT, DLQ.add,
      Response.init, HttpStatus.value]
  · intro u a j hd q hT
    simp [get, rawGet, handleTransport, enqueueOnFailure, hT, DLQ.add,
      Response.init, HttpStatus.value]

/-- Witness for C1: a successful POST against `TMixed` with the
descriptor `d0` pre-seeded; `d0`'s replay fails (500 `HTTPError`), so
the drain keeps it while the triggering result is returned intact. -/
theorem success_triggers_dlq_drain_witness :
    (rawPost TMixed "https://example.com/api" "p" none none none none).raised = none ∧
    (rawPost TMixed "https://example.com/api" "p" none none none none).result.status = .SUCCESS ∧
    post TMixed "https://example.com/api" "p" none none none none [d0] =
      (rawPost TMixed "https://example.com/api" "p" none none none none,
        drain TMixed [d0]) ∧
    drain TMixed [d0] = [d0] := by
  refine ⟨by decide, by decide, ?_, by decide⟩
  exact (success_triggers_dlq_drain TMixed).1 "https://example.com/api" "p"
    none none none none [d0] (by decide) (by decide)

/-- Witness for C2: a timed-out POST with an empty DLQ raises the
unreachable error and leaves exactly the one Timeout descriptor. -/
theorem timeout_raises_and_enqueues_witness :
    TTimeout (postRequest "https://example.com/api" "p" none none none none) = .timeout ∧
    post TTimeout "https://example.com/api" "p" none none none none [] =
      ({ raised := some ⟨"Could not reach API server - connection timed out"⟩,
         result := { status := .TIMEOUT, code := 408, body := [] } },
       [] ++ [postDescriptor "https://example.com/api" "p" none none none "Timeout"]) := by
  refine ⟨rfl, ?_⟩
  exact (timeout_raises_and_enqueues TTimeout).1 "https://example.com/api" "p"
    none none none none [] rfl

/-- Counterexample to C3 as stated: a protocol-level error carrying a
502 response whose body parses does NOT make the call fail — `post`
raises nothing and returns the classified FAILED response. -/
theorem server_error_counterexample :
    T502 (postRequest "https://example.com/api" "p" none none none none) =
      .httpError ⟨502, .ok []⟩ "502 Server Error" ∧
    (500 : Int) ≤ 502 ∧
    (post T502 "https://example.com/api" "p" none none none none []).1.raised = none ∧
    (post T502 "https://example.com/api" "p" none none none none []).1.result.status =
      .FAILED := by
  refine ⟨rfl, by decide, by decide, by decide⟩

/-- C3 (amended): a protocol-level error whose attached response has
status ≥ 500 enqueues exactly one descriptor with error_type
"ServerError"; the call raises exactly when the attached body fails to
parse or the parsed status is exactly 500 (other ≥ 500 codes with
parsable bodies return without raising).  Every response with status
401 leaves the DLQ untouched and raises an error — the authentication
message whenever the body parses. -/
theorem server_error_and_auth_amended (T : Transport) :
    (∀ u p a pk j hd q res m,
      T (postRequest u p a pk j hd) = .httpError res m → 500 ≤ res.status_code →
      (post T u p a pk j hd q).2 = q ++ [postDescriptor u p a pk j "ServerError"] ∧
      ((post T u p a pk j hd q).1.raised = none ↔
        (∃ b, res.json = .ok b) ∧ res.status_code ≠ 500)) ∧
    (∀ u a j hd q res m,
      T (getRequest u a j hd) = .httpError res m → 500 ≤ res.status_code →
      (get T u a j hd q).2 = q ++ [getDescriptor u a j "ServerError"] ∧
      ((get T u a j hd q).1.raised = none ↔
        (∃ b, res.json = .ok b) ∧ res.status_code ≠ 500)) ∧
    (∀ u p a pk j hd q res,
      (T (postRequest u p a pk j hd) = .ok res ∨
        ∃ m, T (postRequest u p a pk j hd) = .httpError res m) →
      res.status_code = 401 →
      (post T u p a pk j hd q).2 = q ∧
      (post T u p a pk j hd q).1.raised ≠ none ∧
      (∀ b, res.json = .ok b →
        (post T u p a pk j hd q).1.raised = some ⟨postMsg401⟩)) ∧
    (∀ u a j hd q res,
      (T (getRequest u a j hd) = .ok res ∨
        ∃ m, T (getRequest u a j hd) = .httpError res m) →
      res.status_code = 401 →
      (get T u a j hd q).2 = q ∧
      (get T u a j hd q).1.raised ≠ none ∧
      (∀ b, res.json = .ok b →
        (get T u a j hd q).1.raised = some ⟨getMsg401 a⟩)) := by
  refine ⟨?_, ?_, ?_, ?_⟩
  · intro u p a pk j hd q res m hT h5
    have hh := handle_httpError_ge500 postMsg401 res m h5
    have hpost := post_eq_no_drain T u p a pk j hd q (by simpa [rawPost, hT] using hh.2)
    constructor
    · rw [hpost]
      show enqueueOnFailure (T (postRequest u p a pk j hd)) _ q = _
      rw [hT]
      simp only [enqueueOnFailure]
      rw [if_pos h5]
      rfl
    · rw [hpost]
      simpa [rawPost, hT] using hh.1
  · intro u a j hd q res m hT h5
    have hh := handle_httpError_ge500 (getMsg401 a) res m h5
    have hget := get_eq_no_drain T u a j hd q (by simpa [rawGet, hT] using hh.2)
    constructor
    · rw [hget]
      show enqueueOnFailure (T (getRequest u a j hd)) _ q = _
      rw [hT]
      simp only [enqueueOnFailure]
      rw [if_pos h5]
      rfl
    · rw [hget]
      simpa [rawGet, hT] using hh.1
  · intro u p a pk j hd q res htr h4
    have hh := handle_401 postMsg401 (T (postRequest u p a pk j hd)) res htr h4
    have hpost := post_eq_no_drain T u p a pk j hd q (by simpa [rawPost] using hh.2.1)
    refine ⟨?_, ?_, ?_⟩
    · rw [hpost]
      show enqueueOnFailure (T (postRequest u p a pk j hd)) _ q = _
      rcases htr with hT | ⟨m, hT⟩ <;> rw [hT] <;> simp only [enqueueOnFailure]
      rw [if_neg (by omega)]
    · rw [hpost]
      simpa [rawPost] using hh.1
    · intro b hb
      rw [hpost]
      simpa [rawPost] using hh.2.2 b hb
  · intro u a j hd q res htr h4
    have hh := handle_401 (getMsg401 a) (T (getRequest u a j hd)) res htr h4
    have hget := get_eq_no_drain T u a j hd q (by simpa [rawGet] using hh.2.1)
    refine ⟨?_, ?_, ?_⟩
    · rw [hget]
      show enqueueOnFailure (T (getRequest u a j hd)) _ q = _
      rcases htr with hT | ⟨m, hT⟩ <;> rw [hT] <;> simp only [enqueueOnFailure]
      rw [if_neg (by omega)]
    · rw [hget]
      simpa [rawGet] using hh.1
    · intro b hb
      rw [hget]
      simpa [rawGet] using hh.2.2 b hb

/-- Witness for the amended C3: a parsable 500 protocol error enqueues
one ServerError descriptor and raises; a parsed 401 enqueues nothing
and raises. -/
theorem server_error_and_auth_amended_witness :
    ((post TFail "https://example.com/api" "p" none none none none []).2 =
      [] ++ [postDescriptor "https://example.com/api" "p" none none none "ServerError"] ∧
     ((post TFail "https://example.com/api" "p" none none none none []).1.raised = none ↔
       (∃ b, (⟨500, .ok [("error", "Internal Server Error")]⟩ : TransportResponse).json =
         .ok b) ∧
       (⟨500, .ok [("error", "Internal Server Error")]⟩ : TransportResponse).status_code
         ≠ 500)) ∧
    ((post T401 "https://example.com/api" "p" none none none none []).2 = [] ∧
     (post T401 "https://example.com/api" "p" none none none none []).1.raised ≠ none) := by
  refine ⟨(server_error_and_auth_amended TFail).1 "https://example.com/api" "p"
    none none none none [] ⟨500, .ok [("error", "Internal Server Error")]⟩
    "500 Server Error" rfl (by decide), ?_⟩
  have h := (server_error_and_auth_amended T401).2.2.1 "https://example.com/api" "p"
    none none none none [] ⟨401, .ok [("error", "Invalid API key")]⟩ (Or.inl rfl) rfl
  exact ⟨h.1, h.2.1⟩

/-- Counterexample to C6 as stated: after a request completing with
SUCCESS the DLQ is NOT always left unchanged — the triggered drain
removes the pre-seeded descriptor `d0` whose replay succeeds. -/
theorem success_dlq_unchanged_counterexample :
    (post TOk "https://example.com/api" "p" none none none none [d0]).1.raised = none ∧
    (post TOk "https://example.com/api" "p" none none none none [d0]).1.result.status =
      .SUCCESS ∧
    (post TOk "https://example.com/api" "p" none none none none [d0]).2 ≠ [d0] := by
  refine ⟨by decide, by decide, by decide⟩

/-- C6 (amended): a `post`/`get` whose transport response has a 2xx
status and a parsable body returns a SUCCESS outcome with that code and
body and raises nothing; the call enqueues nothing — the DLQ after the
call is the drained queue, a sublist of the DLQ before the call — and
for any transport result other than a timeout or a protocol-level
error with status ≥ 500 the DLQ after the call is a sublist of the DLQ
before it (enqueueing happens only in those two categories). -/
theorem success_no_enqueue (T : Transport) :
    (∀ u p a pk j hd q res b,
      T (postRequest u p a pk j hd) = .ok res → res.json = .ok b →
      200 ≤ res.status_code → res.status_code < 300 →
      (post T u p a pk j hd q).1 =
        { raised := none,
          result := { status := .SUCCESS, code := res.status_code, body := b } } ∧
      (post T u p a pk j hd q).2 = drain T q ∧
      List.Sublist (post T u p a pk j hd q).2 q) ∧
    (∀ u a j hd q res b,
      T (getRequest u a j hd) = .ok res → res.json = .ok b →
      200 ≤ res.status_code → res.status_code < 300 →
      (get T u a j hd q).1 =
        { raised := none,
          result := { status := .SUCCESS, code := res.status_code, body := b } } ∧
      (get T u a j hd q).2 = drain T q ∧
      List.Sublist (get T u a j hd q).2 q) ∧
    (∀ u p a pk j hd q,
      T (postRequest u p a pk j hd) ≠ .timeout →
      (∀ res m, T (postRequest u p a pk j hd) = .httpError res m →
        res.status_code < 500) →
      List.Sublist (post T u p a pk j hd q).2 q) ∧
    (∀ u a j hd q,
      T (getRequest u a j hd) ≠ .timeout →
      (∀ res m, T (getRequest u a j hd) = .httpError res m → res.status_code < 500) →
      List.Sublist (get T u a j hd q).2 q) := by
  have hsc : ∀ msg401 (c : Int) (b : Body), 200 ≤ c → c < 300 →
      statusChecks msg401 (Response.parseWith c b) =
        { raised := none, result := { status := .SUCCESS, code := c, body := b } } := by
    intro msg401 c b hlo hhi
    have hs : get_status c = .SUCCESS := (get_status_success_iff c).mpr ⟨hlo, hhi⟩
    rw [statusChecks_eq_of_code msg401 _ (by simp [Response.parseWith]; omega)
      (by simp [Response.parseWith]; omega) (by simp [Response.parseWith]; omega)]
    simp [Response.parseWith, hs]
  have henq : ∀ (tr : TransportResult) (d : String → FailedRequest) (q : DLQ),
      tr ≠ .timeout → (∀ res m, tr = .httpError res m → res.status_code < 500) →
      enqueueOnFailure tr d q = q := by
    intro tr d q hnt h500
    cases tr with
    | ok res => rfl
    | timeout => exact absurd rfl hnt
    | requestError m => rfl
    | httpError res m =>
        have := h500 res m rfl
        simp only [enqueueOnFailure]
        rw [if_neg (by omega)]
  refine ⟨?_, ?_, ?_, ?_⟩
  · intro u p a pk j hd q res b hT hj hlo hhi
    have hr : rawPost T u p a pk j hd =
        { raised := none,
          result := { status := .SUCCESS, code := res.status_code, body := b } } := by
      simp [rawPost, handleTransport, hT, hj, hsc postMsg401 res.status_code b hlo hhi]
    have h1 : post T u p a pk j hd q = (rawPost T u p a pk j hd, drain T q) :=
      (by
        have hq := enqueueOnFailure_eq_of_success postMsg401
          (T (postRequest u p a pk j hd)) (postDescriptor u p a pk j) q
          (by rw [show (handleTransport postMsg401 (T (postRequest u p a pk j hd))) =
              rawPost T u p a pk j hd from rfl, hr])
          (by rw [show (handleTransport postMsg401 (T (postRequest u p a pk j hd))) =
              rawPost T u p a pk j hd from rfl, hr])
        simp only [post, hq, hr]
        simp)
    rw [h1, hr]
    exact ⟨rfl, rfl, drain_sublist T q⟩
  · intro u a j hd q res b hT hj hlo hhi
    have hr : rawGet T u a j hd =
        { raised := none,
          result := { status := .SUCCESS, code := res.status_code, body := b } } := by
      simp [rawGet, handleTransport, hT, hj, hsc (getMsg401 a) res.status_code b hlo hhi]
    have h1 : get T u a j hd q = (rawGet T u a j hd, drain T q) :=
      (by
        have hq := enqueueOnFailure_eq_of_success (getMsg401 a)
          (T (getRequest u a j hd)) (getDescriptor u a j) q
          (by rw [show (handleTransport (getMsg401 a) (T (getRequest u a j hd))) =
              rawGet T u a j hd from rfl, hr])
          (by rw [show (handleTransport (getMsg401 a) (T (getRequest u a j hd))) =
              rawGet T u a j hd from rfl, hr])
        simp only [get, hq, hr]
        simp)
    rw [h1, hr]
    exact ⟨rfl, rfl, drain_sublist T q⟩
  · intro u p a pk j hd q hnt h500
    have hq := henq (T (postRequest u p a pk j hd)) (postDescriptor u p a pk j) q hnt h500
    rcases post_dlq_cases T u p a pk j hd q with h | h
    · rw [h, hq]
      exact drain_sublist T q
    · rw [h, hq]
  · intro u a j hd q hnt h500
    have hq := henq (T (getRequest u a j hd)) (getDescriptor u a j) q hnt h500
    rcases get_dlq_cases T u a j hd q with h | h
    · rw [h, hq]
      exact drain_sublist T q
    · rw [h, hq]

/-- Witness for the amended C6: a parsed 200 POST with a pre-seeded
descriptor returns SUCCESS, enqueues nothing, and drains. -/
theorem success_no_enqueue_witness :
    TOk (postRequest "https://example.com/api" "p" none none none none) =
      .ok ⟨200, .ok [("message", "Success")]⟩ ∧
    (post TOk "https://example.com/api" "p" none none none none [d0]).1 =
      { raised := none,
        result := { status := .SUCCESS, code := 200,
                    body := [("message", "Success")] } } ∧
    (post TOk "https://example.com/api" "p" none none none none [d0]).2 =
      drain TOk [d0] ∧
    List.Sublist (post TOk "https://example.com/api" "p" none none none none [d0]).2 [d0] := by
  have h := (success_no_enqueue TOk).1 "https://example.com/api" "p" none none none
    none [d0] ⟨200, .ok [("message", "Success")]⟩ [("message", "Success")]
    rfl rfl (by decide) (by decide)
  exact ⟨rfl, h.1, h.2.1, h.2.2⟩

/-- Counterexample to C5 as stated: case-insensitive collapse does not
hold for every header name — the override names "X-Foo" and "x-foo"
differ only in case yet yield two distinct keys in the final set,
because only the five canonical names are case-normalized. -/
theorem header_case_collapse_counterexample :
    pyLower "X-Foo" = pyLower "x-foo" ∧ "X-Foo" ≠ "x-foo" ∧
    ((dictKeys (prepare_headers none none none
        (some [("X-Foo", "a"), ("x-foo", "b")]))).filter
      (fun k => pyLower k == "x-foo")).length = 2 := by
  refine ⟨by decide, by decide, by decide⟩

/-- C5 (amended): header composition is a pure function merging in
priority order (defaults, api key, parent key, bearer token, caller
overrides last); name matching is case-insensitive for the five
canonical table names — for any override map, every final key whose
lowercase form is a table name equals that name's canonical spelling,
so such names collapse to at most one key — and on any conflict the
last matching caller override value wins, caller overrides taking
precedence over the credential and default layers; names outside the
table keep their given spelling. -/
theorem prepare_headers_case_amended (a pk j : Option String) (custom : Dict) :
    (dictKeys (prepare_headers a pk j (some custom))).Nodup ∧
    (∀ l P, dictGet proper_case l = some P →
      ∀ k ∈ dictKeys (prepare_headers a pk j (some custom)), pyLower k = l → k = P) ∧
    (∀ l P, dictGet proper_case l = some P →
      ((dictKeys (prepare_headers a pk j (some custom))).filter
        (fun k => pyLower k == l)).length ≤ 1) ∧
    (∀ K, dictGet (prepare_headers a pk j (some custom)) K =
      match custom.reverse.find? (fun kv => properGet kv.1 == K) with
      | some kv => some kv.2
      | none => dictGet (prepare_headers a pk j none) K) ∧
    (∀ t, j = some t → (∀ kv ∈ custom, properGet kv.1 ≠ "Authorization") →
      dictGet (prepare_headers a pk j (some custom)) "Authorization" =
        some ("Bearer " ++ t)) := by
  have hnodup : (dictKeys (prepare_headers a pk j (some custom))).Nodup := by
    rw [prepare_headers_some_eq]
    exact foldl_writes_nodup custom _ (prepare_headers_base_nodup a pk j)
  have hnorm : ∀ k ∈ dictKeys (prepare_headers a pk j (some custom)),
      properGet k = k := by
    rw [prepare_headers_some_eq]
    exact foldl_writes_normalized custom _ (prepare_headers_base_normalized a pk j)
  have hcollapse : ∀ l P, dictGet proper_case l = some P →
      ∀ k ∈ dictKeys (prepare_headers a pk j (some custom)), pyLower k = l → k = P := by
    intro l P hl k hk hkl
    have h1 := hnorm k hk
    rw [properGet_of_table l P k hl hkl] at h1
    exact h1.symm
  refine ⟨hnodup, hcollapse, ?_, ?_, ?_⟩
  · intro l P hl
    refine length_le_one_of_nodup_all_eq _ P (List.Nodup.filter _ hnodup) ?_
    intro x hx
    rw [List.mem_filter] at hx
    exact hcollapse l P hl x hx.1 (by simpa using hx.2)
  · intro K
    rw [prepare_headers_some_eq]
    exact dictGet_foldl_writes custom _ K
  · intro t hj hnone
    rw [prepare_headers_some_eq, dictGet_foldl_writes]
    rw [show custom.reverse.find? (fun kv => properGet kv.1 == "Authorization") =
        none by
      rw [List.find?_eq_none]
      intro kv hkv
      simpa using hnone kv (List.mem_reverse.mp hkv)]
    subst hj
    exact prepare_headers_base_auth a pk t

/-- Witness for the amended C5: overriding both "content-type" and
"Content-Type" leaves exactly one canonical key, holding the last
override value. -/
theorem prepare_headers_case_amended_witness :
    dictGet proper_case "content-type" = some "Content-Type" ∧
    dictGet (prepare_headers none none none
        (some [("content-type", "text/plain"), ("Content-Type", "application/xml")]))
      "Content-Type" = some "application/xml" ∧
    ((dictKeys (prepare_headers none none none
        (some [("content-type", "text/plain"),
               ("Content-Type", "application/xml")]))).filter
      (fun k => pyLower k == "content-type")).length ≤ 1 := by
  refine ⟨rfl, ?_, ?_⟩
  · exact ((prepare_headers_case_amended none none none
      [("content-type", "text/plain"), ("Content-Type", "application/xml")]).2.2.2.1
        "Content-Type").trans (by decide)
  · exact (prepare_headers_case_amended none none none
      [("content-type", "text/plain"), ("Content-Type", "application/xml")]).2.2.1
        "content-type" "Content-Type" rfl

/-- C8: on a parsed response, `post` and `get` raise only when the
final parsed status code is exactly 400, 401 or 500 — any other code
(whether the response arrived on the success path or attached to a
protocol-level error) is returned as the classified Response without
raising, and a code outside 200-299 classifies as non-SUCCESS. -/
theorem raise_only_on_400_401_500 (T : Transport) :
    (∀ u p a pk j hd res b,
      (T (postRequest u p a pk j hd) = .ok res ∨
        ∃ m, T (postRequest u p a pk j hd) = .httpError res m) →
      res.json = .ok b →
      res.status_code ≠ 400 → res.status_code ≠ 401 → res.status_code ≠ 500 →
      (rawPost T u p a pk j hd).raised = none ∧
      (rawPost T u p a pk j hd).result = Response.parseWith res.status_code b) ∧
    (∀ u a j hd res b,
      (T (getRequest u a j hd) = .ok res ∨
        ∃ m, T (getRequest u a j hd) = .httpError res m) →
      res.json = .ok b →
      res.status_code ≠ 400 → res.status_code ≠ 401 → res.status_code ≠ 500 →
      (rawGet T u a j hd).raised = none ∧
      (rawGet T u a j hd).result = Response.parseWith res.status_code b) ∧
    (∀ c : Int, ¬(200 ≤ c ∧ c < 300) → get_status c ≠ .SUCCESS) := by
  refine ⟨?_, ?_, fun c h hs => h ((get_status_success_iff c).mp hs)⟩
  · intro u p a pk j hd res b htr hj h400 h401 h500
    have hh : rawPost T u p a pk j hd =
        { raised := none, result := Response.parseWith res.status_code b } := by
      rw [show rawPost T u p a pk j hd =
          handleTransport postMsg401 (T (postRequest u p a pk j hd)) from rfl,
        handle_parsed postMsg401 _ res b htr hj,
        statusChecks_eq_of_code postMsg401 _ h401 h400 h500]
    rw [hh]
    exact ⟨rfl, rfl⟩
  · intro u a j hd res b htr hj h400 h401 h500
    have hh : rawGet T u a j hd =
        { raised := none, result := Response.parseWith res.status_code b } := by
      rw [show rawGet T u a j hd =
          handleTransport (getMsg401 a) (T (getRequest u a j hd)) from rfl,
        handle_parsed (getMsg401 a) _ res b htr hj,
        statusChecks_eq_of_code (getMsg401 a) _ h401 h400 h500]
    rw [hh]
    exact ⟨rfl, rfl⟩

/-- Witness for C8: a 502 protocol error with a parsable body returns
the classified FAILED response from `post` without raising. -/
theorem raise_only_on_400_401_500_witness :
    (T502 (postRequest "https://example.com/api" "p" none none none none) =
        .ok ⟨502, .ok []⟩ ∨
      ∃ m, T502 (postRequest "https://example.com/api" "p" none none none none) =
        .httpError ⟨502, .ok []⟩ m) ∧
    (rawPost T502 "https://example.com/api" "p" none none none none).raised = none ∧
    (rawPost T502 "https://example.com/api" "p" none none none none).result =
      Response.parseWith 502 [] := by
  refine ⟨Or.inr ⟨"502 Server Error", rfl⟩, ?_⟩
  exact (raise_only_on_400_401_500 T502).1 "https://example.com/api" "p"
    none none none none ⟨502, .ok []⟩ [] (Or.inr ⟨"502 Server Error", rfl⟩)
    rfl (by decide) (by decide) (by decide)

/-- C9: on a parsed 401, `get` raises a message that interpolates the
caller-supplied api_key into the text, while `post` raises a fixed
message that does not mention the key; two `get` calls differing only
in their (string) api_key therefore raise different messages. -/
theorem get_401_message_leaks_api_key (T : Transport) :
    (∀ u a j hd res b, T (getRequest u a j hd) = .ok res → res.status_code = 401 →
      res.json = .ok b → (rawGet T u a j hd).raised = some ⟨getMsg401 a⟩) ∧
    (∀ u p a pk j hd res b, T (postRequest u p a pk j hd) = .ok res →
      res.status_code = 401 → res.json = .ok b →
      (rawPost T u p a pk j hd).raised = some ⟨postMsg401⟩) ∧
    (∀ a : Option String, getMsg401 a =
      "API server: invalid API key: " ++ optStr a ++
        ". Find your API key at https://app.agentops.ai/settings/projects") ∧
    (∀ k1 k2 : String, k1 ≠ k2 → getMsg401 (some k1) ≠ getMsg401 (some k2)) := by
  refine ⟨?_, ?_, fun a => rfl, ?_⟩
  · intro u a j hd res b hT h4 hj
    rw [show rawGet T u a j hd =
        handleTransport (getMsg401 a) (T (getRequest u a j hd)) from rfl,
      handle_parsed (getMsg401 a) _ res b (Or.inl hT) hj,
      statusChecks_401 (getMsg401 a) _ h4]
  · intro u p a pk j hd res b hT h4 hj
    rw [show rawPost T u p a pk j hd =
        handleTransport postMsg401 (T (postRequest u p a pk j hd)) from rfl,
      handle_parsed postMsg401 _ res b (Or.inl hT) hj,
      statusChecks_401 postMsg401 _ h4]
  · intro k1 k2 hne heq
    apply hne
    have hd := congrArg String.data heq
    simp [getMsg401, optStr, String.data_append] at hd
    exact String.ext hd

/-- Witness for C9: against a parsed 401, `get` with key "K1" raises
the message containing "K1", `post` raises the fixed message, and the
"K1"/"K2" messages differ. -/
theorem get_401_message_leaks_api_key_witness :
    (rawGet T401 "https://example.com/api" (some "K1") none none).raised =
      some ⟨getMsg401 (some "K1")⟩ ∧
    (rawPost T401 "https://example.com/api" "p" (some "K1") none none none).raised =
      some ⟨postMsg401⟩ ∧
    getMsg401 (some "K1") ≠ getMsg401 (some "K2") := by
  refine ⟨?_, ?_, ?_⟩
  · exact (get_401_message_leaks_api_key T401).1 "https://example.com/api" (some "K1")
      none none ⟨401, .ok [("error", "Invalid API key")]⟩ [("error", "Invalid API key")]
      rfl rfl rfl
  · exact (get_401_message_leaks_api_key T401).2.1 "https://example.com/api" "p"
      (some "K1") none none none ⟨401, .ok [("error", "Invalid API key")]⟩
      [("error", "Invalid API key")] rfl rfl rfl
  · exact (get_401_message_leaks_api_key T401).2.2.2 "K1" "K2" (by decide)

/-- C10: every Response returned (not raised) by `post` or `get` comes
from the single parse step applied to a transport response: its body is
that response's parsed JSON document, its code is that response's wire
status, and its status equals `get_status` of its own code. -/
theorem response_parse_invariant (T : Transport) :
    (∀ u p a pk j hd,
      (rawPost T u p a pk j hd).raised = none →
      ∃ res b,
        (T (postRequest u p a pk j hd) = .ok res ∨
          ∃ m, T (postRequest u p a pk j hd) = .httpError res m) ∧
        res.json = .ok b ∧
        (rawPost T u p a pk j hd).result = Response.parseWith res.status_code b ∧
        (rawPost T u p a pk j hd).result.status =
          get_status (rawPost T u p a pk j hd).result.code ∧
        (rawPost T u p a pk j hd).result.code = res.status_code ∧
        (rawPost T u p a pk j hd).result.body = b) ∧
    (∀ u a j hd,
      (rawGet T u a j hd).raised = none →
      ∃ res b,
        (T (getRequest u a j hd) = .ok res ∨
          ∃ m, T (getRequest u a j hd) = .httpError res m) ∧
        res.json = .ok b ∧
        (rawGet T u a j hd).result = Response.parseWith res.status_code b ∧
        (rawGet T u a j hd).result.status =
          get_status (rawGet T u a j hd).result.code ∧
        (rawGet T u a j hd).result.code = res.status_code ∧
        (rawGet T u a j hd).result.body = b) := by
  constructor
  · intro u p a pk j hd h
    cases hT : T (postRequest u p a pk j hd) with
    | ok res =>
        cases hj : res.json with
        | ok b =>
            have hres : (rawPost T u p a pk j hd).result =
                Response.parseWith res.status_code b := by
              rw [show rawPost T u p a pk j hd =
                  handleTransport postMsg401 (T (postRequest u p a pk j hd)) from rfl,
                handle_parsed postMsg401 _ res b (Or.inl hT) hj, statusChecks_result]
            exact ⟨res, b, Or.inl rfl, hj, hres, by rw [hres]; rfl,
              by rw [hres]; rfl, by rw [hres]; rfl⟩
        | error e => simp [rawPost, handleTransport, hT, hj] at h
    | timeout => simp [rawPost, handleTransport, hT] at h
    | httpError res m =>
        cases hj : res.json with
        | ok b =>
            have hres : (rawPost T u p a pk j hd).result =
                Response.parseWith res.status_code b := by
              rw [show rawPost T u p a pk j hd =
                  handleTransport postMsg401 (T (postRequest u p a pk j hd)) from rfl,
                handle_parsed postMsg401 _ res b (Or.inr ⟨m, hT⟩) hj, statusChecks_result]
            exact ⟨res, b, Or.inr ⟨m, rfl⟩, hj, hres, by rw [hres]; rfl,
              by rw [hres]; rfl, by rw [hres]; rfl⟩
        | error e => simp [rawPost, handleTransport, hT, hj] at h
    | requestError m => simp [rawPost, handleTransport, hT] at h
  · intro u a j hd h
    cases hT : T (getRequest u a j hd) with
    | ok res =>
        cases hj : res.json with
        | ok b =>
            have hres : (rawGet T u a j hd).result =
                Response.parseWith res.status_code b := by
              rw [show rawGet T u a j hd =
                  handleTransport (getMsg401 a) (T (getRequest u a j hd)) from rfl,
                handle_parsed (getMsg401 a) _ res b (Or.inl hT) hj, statusChecks_result]
            exact ⟨res, b, Or.inl rfl, hj, hres, by rw [hres]; rfl,
              by rw [hres]; rfl, by rw [hres]; rfl⟩
        | error e => simp [rawGet, handleTransport, hT, hj] at h
    | timeout => simp [rawGet, handleTransport, hT] at h
    | httpError res m =>
        cases hj : res.json with
        | ok b =>
            have hres : (rawGet T u a j hd).result =
                Response.parseWith res.status_code b := by
              rw [show rawGet T u a j hd =
                  handleTransport (getMsg401 a) (T (getRequest u a j hd)) from rfl,
                handle_parsed (getMsg401 a) _ res b (Or.inr ⟨m, hT⟩) hj, statusChecks_result]
            exact ⟨res, b, Or.inr ⟨m, rfl⟩, hj, hres, by rw [hres]; rfl,
              by rw [hres]; rfl, by rw [hres]; rfl⟩
        | error e => simp [rawGet, handleTransport, hT, hj] at h
    | requestError m => simp [rawGet, handleTransport, hT] at h

/-- Witness for C10: the 200 response returned through `TOk` satisfies
the parse invariant. -/
theorem response_parse_invariant_witness :
    (rawPost TOk "https://example.com/api" "p" none none none none).raised = none ∧
    ∃ res b,
      (TOk (postRequest "https://example.com/api" "p" none none none none) = .ok res ∨
        ∃ m, TOk (postRequest "https://example.com/api" "p" none none none none) =
          .httpError res m) ∧
      res.json = .ok b ∧
      (rawPost TOk "https://example.com/api" "p" none none none none).result =
        Response.parseWith res.status_code b ∧
      (rawPost TOk "https://example.com/api" "p" none none none none).result.status =
        get_status
          (rawPost TOk "https://example.com/api" "p" none none none none).result.code ∧
      (rawPost TOk "https://example.com/api" "p" none none none none).result.code =
        res.status_code ∧
      (rawPost TOk "https://example.com/api" "p" none none none none).result.body = b := by
  refine ⟨by decide, ?_⟩
  exact (response_parse_invariant TOk).1 "https://example.com/api" "p"
    none none none none (by decide)

end AgentOps
